import Mathlib

/-!
Verification of `term_js.go` (package `term`, build tag `js`).

The file under study forwards terminal operations to a host object through
Go's `syscall/js`.  The first part of this development embeds the fragment of
`syscall/js` (and of the `wasm_exec.js` glue behind it) that `term_js.go`
uses; the second part embeds `term_js.go` itself, function by function.

Conventions of the embedding:

* A JavaScript value is a `js.Value`: a primitive, or a reference to a host
  object or function.  A BigInt is a value too: Go can hold one, but
  `syscall/js` has no type for it and `Value.Type` panics on it.  What lives behind a reference is owned by the host and
  is read through the operations of a `js.Host`.
* The host is a state machine with an arbitrary state type `σ`: reading a
  property and `instanceof` observe the state, applying a function may change
  it and either returns a value or throws one.
* A Go function that may panic returns an `Outcome`; Go state (the package
  variable `jsErrorCtor`), the host state and the log of host interactions are
  threaded through a `World`.
* A Go `int` is an `Int` (64 bits wide on `js/wasm`, the only platform the
  build tag admits); a Go pointer `*T` is an `Option T`; a Go `error` is an
  `Option term.error` with `none` for `nil`.
-/

namespace js

/-- A JavaScript number as it crosses the boundary: NaN, an infinity, or the finite
value `m * 2 ^ e`.  Every IEEE-754 double has this form; both zeros are `m = 0`
(the glue code maps `-0` and `+0` to the same predefined reference). -/
inductive Number where
  | nan
  | inf (negative : Bool)
  | finite (m : Int) (e : Int)
  deriving DecidableEq

/-- The type `js.Type` with its eight constants. -/
inductive ValueType where
  | TypeUndefined
  | TypeNull
  | TypeBoolean
  | TypeNumber
  | TypeString
  | TypeSymbol
  | TypeObject
  | TypeFunction
  deriving DecidableEq

/-- The type `js.Value`: a JavaScript value held by Go.  Objects, functions and symbols
are references into the host.  A BigInt `n` is held as a reference with type flag 0,
the flag of no `js.Type`. -/
inductive Value where
  | undefined
  | null
  | boolean (b : Bool)
  | number (x : Number)
  | string (s : String)
  | symbol (ref : Nat)
  | object (ref : Nat)
  | func (ref : Nat)
  | bigint (n : Int)
  deriving DecidableEq

/-- How a host function call ends. -/
inductive Completion where
  | normal (v : Value)
  | throw (e : Value)
  deriving DecidableEq

/-- The host environment, as far as `syscall/js` observes it. -/
structure Host (σ : Type) where
  /-- The property `key` of the global object: `Reflect.get(globalThis, key)`. -/
  global : σ → String → Value
  /-- The property `key` of an object or function: `Reflect.get(o, key)`
  (`undefined` when the property is missing). -/
  get : σ → Value → String → Value
  /-- The test `o instanceof ctor` for an object or function `o`. -/
  instanceOf : σ → Value → Value → Bool
  /-- The call `Reflect.apply(f, this, args)` of a function `f`. -/
  apply : σ → Value → Value → List Value → Completion × σ

/-- What a Go panic carries. -/
inductive Panic where
  /-- The value `&js.ValueError{Method, Type}`. -/
  | valueError (method : String) (t : ValueType)
  /-- A panic with a string. -/
  | message (msg : String)
  /-- The value `js.Error{v}`, a JavaScript exception. -/
  | jsError (v : Value)
  /-- A nil pointer dereference. -/
  | nilDereference
  deriving DecidableEq

/-- A Go call either returns or panics. -/
inductive Outcome (α : Type) where
  | returned (a : α)
  | panicked (p : Panic)
  deriving DecidableEq

/-- One interaction with the host that the log records. -/
inductive Event where
  /-- A read of a property of the global object. -/
  | globalGet (key : String)
  /-- A method call handed to the host: receiver, method name, arguments. -/
  | call (recv : Value) (method : String) (args : List Value)
  deriving DecidableEq

/-- The dynamic type and value of an argument passed as `interface{}`. -/
inductive GoArg where
  /-- A Go `int`. -/
  | int (n : Int)
  /-- A `js.Value`. -/
  | jsValue (v : Value)
  /-- A value of the defined type `term.state` (declared `type state js.Value`). -/
  | termState (v : Value)
  deriving DecidableEq

/-- The conversion `float64(x)` of a Go `int`: exact below `2 ^ 53`, otherwise rounded to
53 significant bits, ties to even. -/
def float64OfInt (x : Int) : Number :=
  let a := x.natAbs
  if a < 2 ^ 53 then Number.finite x 0
  else
    let sh := Nat.log2 a + 1 - 53
    let q := a / 2 ^ sh
    let r := a % 2 ^ sh
    let half := 2 ^ (sh - 1)
    let q1 := if half < r ∨ (r = half ∧ q % 2 = 1) then q + 1 else q
    Number.finite (if x < 0 then -(q1 : Int) else (q1 : Int)) sh

/-- The function `js.ValueOf` on the argument types that occur.  Its type switch has a
case for `js.Value` and cases for the basic types; a value of any other dynamic type,
a defined type such as `term.state` included, reaches the default case
`panic("ValueOf: invalid value")`. -/
def ValueOf : GoArg → Outcome Value
  | GoArg.int n => Outcome.returned (Value.number (float64OfInt n))
  | GoArg.jsValue v => Outcome.returned v
  | GoArg.termState _ => Outcome.panicked (Panic.message "ValueOf: invalid value")

/-- The function `makeArgs`: `ValueOf` on each argument, left to right. -/
def makeArgs : List GoArg → Outcome (List Value)
  | [] => Outcome.returned []
  | a :: rest =>
    match ValueOf a with
    | Outcome.panicked p => Outcome.panicked p
    | Outcome.returned v =>
      match makeArgs rest with
      | Outcome.panicked p => Outcome.panicked p
      | Outcome.returned vs => Outcome.returned (v :: vs)

/-- The method `Type.String`. -/
def ValueType.String : ValueType → String
  | TypeUndefined => "undefined"
  | TypeNull => "null"
  | TypeBoolean => "boolean"
  | TypeNumber => "number"
  | TypeString => "string"
  | TypeSymbol => "symbol"
  | TypeObject => "object"
  | TypeFunction => "function"

/-- The method `Type.isObject`. -/
def ValueType.isObject (t : ValueType) : Bool :=
  t = TypeObject || t = TypeFunction

/-- The method `Value.Type`: the type of the value, and `panic("bad type flag")` for a
value with none of the four type flags, which is what a BigInt is. -/
def Value.TypeOf : Value → Outcome ValueType
  | undefined => Outcome.returned ValueType.TypeUndefined
  | null => Outcome.returned ValueType.TypeNull
  | boolean _ => Outcome.returned ValueType.TypeBoolean
  | number _ => Outcome.returned ValueType.TypeNumber
  | string _ => Outcome.returned ValueType.TypeString
  | symbol _ => Outcome.returned ValueType.TypeSymbol
  | object _ => Outcome.returned ValueType.TypeObject
  | func _ => Outcome.returned ValueType.TypeFunction
  | bigint _ => Outcome.panicked (Panic.message "bad type flag")

/-- The method `Value.Truthy`: a switch on `v.Type()`, so a panic where `Type` panics. -/
def Value.Truthy (v : Value) : Outcome Bool :=
  match v.TypeOf with
  | Outcome.panicked p => Outcome.panicked p
  | Outcome.returned _ =>
    match v with
    | undefined => Outcome.returned false
    | null => Outcome.returned false
    | boolean b => Outcome.returned b
    | number Number.nan => Outcome.returned false
    | number (Number.inf _) => Outcome.returned true
    | number (Number.finite m _) => Outcome.returned (m != 0)
    | string s => Outcome.returned (s != "")
    | symbol _ => Outcome.returned true
    | object _ => Outcome.returned true
    | func _ => Outcome.returned true
    | bigint _ => Outcome.panicked (Panic.message "bad type")

/-- The smallest Go `int` on `js/wasm`. -/
def minInt : Int := -(2 ^ 63)

/-- The largest Go `int` on `js/wasm`. -/
def maxInt : Int := 2 ^ 63 - 1

/-- The conversion `int(f)` of a `float64`: truncation toward zero when the result
fits an `int`.  Otherwise the Go specification leaves the value to the implementation;
on `js/wasm` the conversion saturates: the nearest bound for an out-of-range operand
and 0 for NaN (older toolchains answer `-2 ^ 63` in all these cases).  Whatever the
choice, the result is a Go `int`. -/
def Number.toGoInt : Number → Int
  | nan => 0
  | inf negative => if negative then minInt else maxInt
  | finite m e =>
    let t := if 0 ≤ e then m * 2 ^ e.toNat else Int.tdiv m (2 ^ (-e).toNat)
    if t < minInt then minInt else if maxInt < t then maxInt else t

/-- The method `Value.Int`: the number truncated to an `int`, and for a value that is
not a number the panic `&ValueError{"Value.Int", v.Type()}`. -/
def Value.Int : Value → Outcome Int
  | number x => Outcome.returned x.toGoInt
  | v =>
    match v.TypeOf with
    | Outcome.panicked p => Outcome.panicked p
    | Outcome.returned t => Outcome.panicked (Panic.valueError "Value.Int" t)

/-- The method `Value.InstanceOf`: for a primitive (a BigInt included) the answer is
`false`, for an object or a function the host decides.  It does not call `Type`. -/
def Value.InstanceOf {σ : Type} (H : Host σ) (s : σ) (v ctor : Value) : Bool :=
  match v with
  | object _ => H.instanceOf s v ctor
  | func _ => H.instanceOf s v ctor
  | _ => false

/-- The running program: the Go package variable `jsErrorCtor` of package `term`, the
state of the host, and the log of host interactions so far. -/
structure World (σ : Type) where
  jsErrorCtor : Value
  host : σ
  trace : List Event
  deriving DecidableEq

/-- Appends an event to the log. -/
def World.log {σ : Type} (w : World σ) (e : Event) : World σ :=
  { w with trace := w.trace ++ [e] }

/-- The expression `js.Global().Get(key)`: reads the property from the global object as
it is now. -/
def GlobalGet {σ : Type} (H : Host σ) (key : String) (w : World σ) : Value × World σ :=
  (H.global w.host key, w.log (Event.globalGet key))

/-- The method `Value.Get`: the property `p` of an object or function, a panic for any
other value. -/
def Value.Get {σ : Type} (H : Host σ) (s : σ) (v : Value) (p : String) : Outcome Value :=
  match v.TypeOf with
  | Outcome.panicked q => Outcome.panicked q
  | Outcome.returned t =>
    if t.isObject then Outcome.returned (H.get s v p)
    else Outcome.panicked (Panic.valueError "Value.Get" t)

/-- The text of the panic raised by `Value.Call` for a property that is not callable. -/
def notAFunction (m : String) (t : ValueType) : String :=
  "syscall/js: Value.Call: property " ++ m ++ " is not a function, got " ++ t.String

/-- The method `Value.Call` together with the glue function `valueCall`.

The arguments are converted first (`makeArgs`).  The glue then evaluates
`Reflect.apply(Reflect.get(v, m), v, args)` inside `try`, and reports failure when
anything throws.  On failure `Call` panics: with a `ValueError` when `v` is not an
object, with the not-a-function text when the property `m` (read again) is not a
function, and with `js.Error` holding the thrown value otherwise; the two tests call
`Type`, which itself panics on a BigInt. -/
def Value.Call {σ : Type} (H : Host σ) (v : Value) (m : String) (args : List GoArg)
    (w : World σ) : Outcome Value × World σ :=
  match makeArgs args with
  | Outcome.panicked p => (Outcome.panicked p, w)
  | Outcome.returned argVals =>
    let w1 := w.log (Event.call v m argVals)
    match v.TypeOf with
    | Outcome.panicked q => (Outcome.panicked q, w1)
    | Outcome.returned vt =>
      if !vt.isObject then (Outcome.panicked (Panic.valueError "Value.Call" vt), w1)
      else
        match (H.get w1.host v m).TypeOf with
        | Outcome.panicked q => (Outcome.panicked q, w1)
        | Outcome.returned pt =>
          if pt ≠ ValueType.TypeFunction then
            (Outcome.panicked (Panic.message (notAFunction m pt)), w1)
          else
            match H.apply w1.host (H.get w1.host v m) v argVals with
            | (Completion.normal r, s1) => (Outcome.returned r, { w1 with host := s1 })
            | (Completion.throw e, s1) =>
              match (H.get s1 v m).TypeOf with
              | Outcome.panicked q => (Outcome.panicked q, { w1 with host := s1 })
              | Outcome.returned pt2 =>
                if pt2 ≠ ValueType.TypeFunction then
                  (Outcome.panicked (Panic.message (notAFunction m pt2)),
                    { w1 with host := s1 })
                else (Outcome.panicked (Panic.jsError e), { w1 with host := s1 })

end js

namespace term

open js

/-- A non-nil Go `error` value of the kinds this package produces. -/
inductive error where
  /-- The value `js.Error{v}`: wraps a JavaScript error value. -/
  | jsError (v : Value)
  /-- The result of `errors.New(s)`, and of `fmt.Errorf` without a wrapped error. -/
  | errorString (s : String)
  deriving DecidableEq

/-- The declaration `type state js.Value`. -/
structure state where
  value : Value
  deriving DecidableEq

/-- Modelled from the spec: the struct `State` is declared outside `term_js.go`; it holds
the one embedded field `state`, as the literal `&State{state(newState)}` shows. -/
structure State where
  state : state
  deriving DecidableEq

/-- The constant `runtime.GOOS` under the build constraint `js`. -/
def GOOS : String := "js"

/-- The constant `runtime.GOARCH` for `GOOS=js`. -/
def GOARCH : String := "wasm"

/-- The key of the bridge object on the global object. -/
def bridgeKey : String := "golang.org/x/term"

/-- The text of the error `getSize` returns for a result of the wrong shape. -/
def sizeShapeMessage : String :=
  "JS getSize(fd) must return an object with width and height properties"

/-- The function `init`: stores the global `Error` constructor in `jsErrorCtor`. -/
def init {σ : Type} (H : Host σ) (w : World σ) : World σ :=
  let (ctor, w1) := GlobalGet H "Error" w
  { w1 with jsErrorCtor := ctor }

/-- The function `jsBridge`: returns the pair `(error, js.Value)`. -/
def jsBridge {σ : Type} (H : Host σ) (method : String) (args : List GoArg) (w : World σ) :
    Outcome (Option error × Value) × World σ :=
  let (bridge, w1) := GlobalGet H bridgeKey w
  match bridge.Call H method args w1 with
  | (Outcome.panicked p, w2) => (Outcome.panicked p, w2)
  | (Outcome.returned result, w2) =>
    if result.InstanceOf H w2.host w2.jsErrorCtor then
      (Outcome.returned (some (error.jsError result), Value.null), w2)
    else
      (Outcome.returned (none, result), w2)

/-- The function `isTerminal`. -/
def isTerminal {σ : Type} (H : Host σ) (fd : Int) (w : World σ) : Outcome Bool × World σ :=
  match jsBridge H "isTerminal" [GoArg.int fd] w with
  | (Outcome.panicked p, w1) => (Outcome.panicked p, w1)
  | (Outcome.returned (_, result), w1) => (result.Truthy, w1)

/-- The function `makeRaw`. -/
def makeRaw {σ : Type} (H : Host σ) (fd : Int) (w : World σ) :
    Outcome (Option State × Option error) × World σ :=
  match jsBridge H "makeRaw" [GoArg.int fd] w with
  | (Outcome.panicked p, w1) => (Outcome.panicked p, w1)
  | (Outcome.returned (err, newState), w1) =>
    if err = none then (Outcome.returned (some ⟨⟨newState⟩⟩, none), w1)
    else (Outcome.returned (none, err), w1)

/-- The function `getState`. -/
def getState {σ : Type} (H : Host σ) (fd : Int) (w : World σ) :
    Outcome (Option State × Option error) × World σ :=
  match jsBridge H "getState" [GoArg.int fd] w with
  | (Outcome.panicked p, w1) => (Outcome.panicked p, w1)
  | (Outcome.returned (err, newState), w1) =>
    if err = none then (Outcome.returned (some ⟨⟨newState⟩⟩, none), w1)
    else (Outcome.returned (none, err), w1)

/-- The function `restore`.  The selector `state.state` dereferences the pointer; the
field it reads has the defined type `state`, and is passed on as it is. -/
def restore {σ : Type} (H : Host σ) (fd : Int) (st : Option State) (w : World σ) :
    Outcome (Option error) × World σ :=
  match st with
  | none => (Outcome.panicked Panic.nilDereference, w)
  | some s =>
    match jsBridge H "restore" [GoArg.int fd, GoArg.termState s.state.value] w with
    | (Outcome.panicked p, w1) => (Outcome.panicked p, w1)
    | (Outcome.returned (err, _), w1) => (Outcome.returned err, w1)

/-- The condition `w.Type() != js.TypeNumber || h.Type() != js.TypeNumber` of `getSize`:
`h.Type()` is evaluated only when the left operand is false. -/
def widthHeightMistyped (wd ht : Value) : Outcome Bool :=
  match wd.TypeOf with
  | Outcome.panicked p => Outcome.panicked p
  | Outcome.returned wt =>
    if wt ≠ ValueType.TypeNumber then Outcome.returned true
    else
      match ht.TypeOf with
      | Outcome.panicked p => Outcome.panicked p
      | Outcome.returned htt => Outcome.returned (decide (htt ≠ ValueType.TypeNumber))

/-- The function `getSize`: returns `(width, height, err)`. -/
def getSize {σ : Type} (H : Host σ) (fd : Int) (w : World σ) :
    Outcome (Int × Int × Option error) × World σ :=
  match jsBridge H "getSize" [GoArg.int fd] w with
  | (Outcome.panicked p, w1) => (Outcome.panicked p, w1)
  | (Outcome.returned (err, wh), w1) =>
    if err ≠ none then (Outcome.returned (0, 0, err), w1)
    else
      match wh.TypeOf with
      | Outcome.panicked p => (Outcome.panicked p, w1)
      | Outcome.returned t =>
        if t ≠ ValueType.TypeObject then
          (Outcome.returned (0, 0, some (error.errorString sizeShapeMessage)), w1)
        else
          match wh.Get H w1.host "width", wh.Get H w1.host "height" with
          | Outcome.returned wd, Outcome.returned ht =>
            match widthHeightMistyped wd ht with
            | Outcome.panicked p => (Outcome.panicked p, w1)
            | Outcome.returned true =>
              (Outcome.returned (0, 0, some (error.errorString sizeShapeMessage)), w1)
            | Outcome.returned false =>
              match wd.Int, ht.Int with
              | Outcome.returned a, Outcome.returned b =>
                (Outcome.returned (a, b, none), w1)
              | Outcome.panicked p, _ => (Outcome.panicked p, w1)
              | _, Outcome.panicked p => (Outcome.panicked p, w1)
          | Outcome.panicked p, _ => (Outcome.panicked p, w1)
          | _, Outcome.panicked p => (Outcome.panicked p, w1)

/-- The function `readPassword`: returns `([]byte, error)`, the slice being `nil`. -/
def readPassword {σ : Type} (_fd : Int) (w : World σ) :
    Outcome (Option (List Nat) × Option error) × World σ :=
  (Outcome.returned
    (none, some (error.errorString
      ("terminal: ReadPassword not implemented on " ++ GOOS ++ "/" ++ GOARCH))), w)

/-! Vocabulary of the specification. -/

/-- The host's bridge method `method`, called with `args` in host state `s`, returns `v`
and leaves the host in state `s1`: the global key holds an object, its property
`method` is a function, and applying that function to `args` with the bridge object as
receiver completes normally with `v`. -/
def bridgeReturns {σ : Type} (H : Host σ) (s : σ) (method : String) (args : List Value)
    (v : Value) (s1 : σ) : Prop :=
  ((H.global s bridgeKey).TypeOf = Outcome.returned ValueType.TypeObject ∨
    (H.global s bridgeKey).TypeOf = Outcome.returned ValueType.TypeFunction) ∧
  (H.get s (H.global s bridgeKey) method).TypeOf = Outcome.returned ValueType.TypeFunction ∧
  H.apply s (H.get s (H.global s bridgeKey) method) (H.global s bridgeKey) args
    = (Completion.normal v, s1)

/-- The descriptor `fd` as the host receives it. -/
def fdArg (fd : Int) : Value :=
  Value.number (float64OfInt fd)

/-- The value `v` is an instance of the Error constructor the package holds. -/
def isHostError {σ : Type} (H : Host σ) (w : World σ) (s1 : σ) (v : Value) : Bool :=
  v.InstanceOf H s1 w.jsErrorCtor

/-- The number `x` is the integer `n`. -/
def isInteger (x : Number) (n : Int) : Prop :=
  match x with
  | Number.finite m e => if 0 ≤ e then m * 2 ^ e.toNat = n else m = n * 2 ^ (-e).toNat
  | _ => False

/-- JavaScript truthiness: every value is truthy except `undefined`, `null`, `false`,
zero, NaN, the empty string and the BigInt zero. -/
def jsTruthy (v : Value) : Prop :=
  v ≠ Value.undefined ∧ v ≠ Value.null ∧ v ≠ Value.boolean false ∧
  v ≠ Value.number Number.nan ∧ (∀ e, v ≠ Value.number (Number.finite 0 e)) ∧
  v ≠ Value.string "" ∧ v ≠ Value.bigint 0

/-- A BridgeError of the specification: the wrapper `js.Error` around a host value. -/
def error.isBridgeError : error → Bool
  | error.jsError _ => true
  | error.errorString _ => false

/-- The world after `init` in a fresh process with host state `s`. -/
def boot {σ : Type} (H : Host σ) (s : σ) : World σ :=
  init H { jsErrorCtor := Value.undefined, host := s, trace := [] }

/-! Host stubs for the concrete cases. -/

/-- The position of a method name in a method table. -/
def methodIndex : List (String × Completion) → String → Option Nat
  | [], _ => none
  | (name, _) :: rest, m =>
    if name = m then some 0 else (methodIndex rest m).map Nat.succ

/-- A stateless host stub.  The global `Error` is function 0 and the bridge object is
object 1.  `methods` lists the functions of the bridge, each with the way its call
completes; the i-th is function `i + 1`.  `fields` lists the properties of the other
objects, and `errors` the references of the objects that are instances of `Error`. -/
def stubHost (methods : List (String × Completion)) (fields : List (Nat × String × Value))
    (errors : List Nat) : Host Unit where
  global := fun _ key =>
    if key = bridgeKey then Value.object 1
    else if key = "Error" then Value.func 0
    else Value.undefined
  get := fun _ o p =>
    match o with
    | Value.object 1 =>
      match methodIndex methods p with
      | some i => Value.func (i + 1)
      | none => Value.undefined
    | Value.object r =>
      match fields.find? (fun f => f.1 = r ∧ f.2.1 = p) with
      | some f => f.2.2
      | none => Value.undefined
    | _ => Value.undefined
  instanceOf := fun _ o ctor =>
    match o with
    | Value.object r => decide (ctor = Value.func 0 ∧ r ∈ errors)
    | _ => false
  apply := fun _ f _ _ =>
    match f with
    | Value.func (i + 1) =>
      match methods.get? i with
      | some m => (m.2, ())
      | none => (Completion.throw Value.undefined, ())
    | _ => (Completion.throw Value.undefined, ())

/-- A host without any bridge object: the global key is not set. -/
def absentHost : Host Unit where
  global := fun _ key => if key = "Error" then Value.func 0 else Value.undefined
  get := fun _ _ _ => Value.undefined
  instanceOf := fun _ _ _ => false
  apply := fun _ _ _ _ => (Completion.throw Value.undefined, ())

/-- A host that installs a new bridge object after every call: in state `n` the global
key holds object `n`, every bridge has the method `getState`, and a call of it returns
`undefined` and moves the host to state `n + 1`. -/
def replacingHost : Host Nat where
  global := fun n key =>
    if key = bridgeKey then Value.object n
    else if key = "Error" then Value.func 0
    else Value.undefined
  get := fun _ _ p => if p = "getState" then Value.func 1 else Value.undefined
  instanceOf := fun _ _ _ => false
  apply := fun n _ _ _ => (Completion.normal Value.undefined, n + 1)

/-- A bridge whose `getSize` returns object 2 with the given `width` and `height`. -/
def sizeHost (width height : Value) : Host Unit :=
  stubHost [("getSize", Completion.normal (Value.object 2))]
    [(2, "width", width), (2, "height", height)] []

/-- A bridge whose `makeRaw` returns the plain object 5 and whose `restore` returns
`undefined`. -/
def rawHost : Host Unit :=
  stubHost [("makeRaw", Completion.normal (Value.object 5)),
    ("restore", Completion.normal Value.undefined)] [] []

/-- A bridge whose every method returns object 9, an instance of `Error`. -/
def failingHost : Host Unit :=
  stubHost [("isTerminal", Completion.normal (Value.object 9)),
    ("getSize", Completion.normal (Value.object 9)),
    ("getState", Completion.normal (Value.object 9)),
    ("makeRaw", Completion.normal (Value.object 9)),
    ("restore", Completion.normal (Value.object 9))] [] [9]

/-- A bridge whose methods return object 7: a plain object with `name` and `message`
properties like those of an error, which is not an instance of `Error`. -/
def lookalikeHost : Host Unit :=
  stubHost [("getState", Completion.normal (Value.object 7)),
    ("makeRaw", Completion.normal (Value.object 7)),
    ("restore", Completion.normal (Value.object 7))]
    [(7, "name", Value.string "Error"), (7, "message", Value.string "boom")] []

/-- A bridge object that has no methods at all. -/
def bareHost : Host Unit :=
  stubHost [] [] []

/-- A bridge whose `isTerminal` returns `v`. -/
def ttyHost (v : Value) : Host Unit :=
  stubHost [("isTerminal", Completion.normal v)] [] []

/-! Shared lemmas. -/

/-- The one argument `fd` converts to the number `float64(fd)`. -/
theorem makeArgs_fd (fd : Int) : makeArgs [GoArg.int fd] = Outcome.returned [fdArg fd] := rfl

/-- What `jsBridge` does when the host method returns: one lookup of the bridge, one
call, and the result classified by `instanceof`. -/
theorem jsBridge_of_bridgeReturns {σ : Type} (H : Host σ) (method : String)
    (args : List GoArg) (vals : List Value) (w : World σ) (v : Value) (s1 : σ)
    (hargs : makeArgs args = Outcome.returned vals)
    (h : bridgeReturns H w.host method vals v s1) :
    jsBridge H method args w =
      (Outcome.returned
        (if isHostError H w s1 v then (some (error.jsError v), Value.null) else (none, v)),
       { jsErrorCtor := w.jsErrorCtor, host := s1,
         trace := w.trace ++ [Event.globalGet bridgeKey,
           Event.call (H.global w.host bridgeKey) method vals] }) := by
  obtain ⟨hobj, hfn, happ⟩ := h
  rcases hobj with hobj | hobj <;>
    simp only [jsBridge, GlobalGet, Value.Call, World.log, hargs, hobj, hfn, happ,
      isHostError] <;>
    by_cases hi : v.InstanceOf H s1 w.jsErrorCtor = true <;>
    simp [hi, ValueType.isObject]

/-- A number that is an integer within the range of `int` converts to that integer. -/
theorem toGoInt_of_isInteger (x : Number) (n : Int) (hx : isInteger x n)
    (hr : minInt ≤ n ∧ n ≤ maxInt) : x.toGoInt = n := by
  cases x with
  | nan => exact absurd hx (by simp [isInteger])
  | inf b => exact absurd hx (by simp [isInteger])
  | finite m e =>
    unfold isInteger at hx
    unfold Number.toGoInt
    by_cases he : 0 ≤ e
    · simp only [he, if_true] at hx ⊢
      rw [hx]
      simp [not_lt.mpr hr.1, not_lt.mpr hr.2]
    · simp only [he, if_false] at hx ⊢
      have h2 : ((2 : Int) ^ (-e).toNat) ≠ 0 := pow_ne_zero _ (by norm_num)
      rw [hx, Int.mul_tdiv_cancel _ h2]
      simp [not_lt.mpr hr.1, not_lt.mpr hr.2]

/-- C1 (amended): for every descriptor and all integers `wd` and `ht` that fit a Go
`int`, if the host's `getSize(fd)` returns an object that is not an Error instance and
whose `width` and `height` properties are the numbers `wd` and `ht`, then `getSize`
returns `(wd, ht, nil)`. -/
theorem getSize_returns_exact_pair {σ : Type} (H : Host σ) (fd wd ht : Int) (w : World σ)
    (v : Value) (s1 : σ) (x y : Number)
    (hcall : bridgeReturns H w.host "getSize" [fdArg fd] v s1)
    (hnoerr : isHostError H w s1 v = false)
    (hobj : v.TypeOf = Outcome.returned ValueType.TypeObject)
    (hx : H.get s1 v "width" = Value.number x)
    (hy : H.get s1 v "height" = Value.number y)
    (hwd : isInteger x wd) (hht : isInteger y ht)
    (hwr : minInt ≤ wd ∧ wd ≤ maxInt) (hhr : minInt ≤ ht ∧ ht ≤ maxInt) :
    (getSize H fd w).1 = Outcome.returned (wd, ht, none) := by
  unfold getSize
  rw [jsBridge_of_bridgeReturns H "getSize" _ _ w v s1 (makeArgs_fd fd) hcall]
  have tx : (Value.number x).TypeOf = Outcome.returned ValueType.TypeNumber := rfl
  have ty : (Value.number y).TypeOf = Outcome.returned ValueType.TypeNumber := rfl
  simp [hnoerr, hobj, Value.Get, ValueType.isObject, hx, hy, tx, ty, Value.Int,
    widthHeightMistyped, toGoInt_of_isInteger x wd hwd hwr,
    toGoInt_of_isInteger y ht hht hhr]

/-- C1, witness: the host returns `{width: 80, height: 24}` and `getSize` returns
`(80, 24, nil)`. -/
theorem getSize_returns_exact_pair_witness :
    (getSize (sizeHost (Value.number (Number.finite 80 0)) (Value.number (Number.finite 24 0)))
        0 (boot (sizeHost (Value.number (Number.finite 80 0))
          (Value.number (Number.finite 24 0))) ())).1
      = Outcome.returned (80, 24, none) :=
  getSize_returns_exact_pair _ 0 80 24 _ (Value.object 2) () (Number.finite 80 0)
    (Number.finite 24 0) (by unfold bridgeReturns; decide) (by decide) (by decide)
    (by decide) (by decide) (by unfold isInteger; decide) (by unfold isInteger; decide)
    (by decide) (by decide)

/-- C1, counterexample: the host returns `{width: 2 ** 63, height: 24}`, an object that
is not an Error instance and whose fields are the integers `2 ^ 63` and `24`; `getSize`
does not return `(2 ^ 63, 24, nil)`. -/
theorem getSize_pair_not_exact_beyond_int :
    bridgeReturns (sizeHost (Value.number (Number.finite 1 63)) (Value.number (Number.finite 24 0)))
        () "getSize" [fdArg 0] (Value.object 2) () ∧
      isHostError (sizeHost (Value.number (Number.finite 1 63)) (Value.number (Number.finite 24 0)))
        (boot (sizeHost (Value.number (Number.finite 1 63)) (Value.number (Number.finite 24 0))) ())
        () (Value.object 2) = false ∧
      (sizeHost (Value.number (Number.finite 1 63)) (Value.number (Number.finite 24 0))).get
        () (Value.object 2) "width" = Value.number (Number.finite 1 63) ∧
      (sizeHost (Value.number (Number.finite 1 63)) (Value.number (Number.finite 24 0))).get
        () (Value.object 2) "height" = Value.number (Number.finite 24 0) ∧
      isInteger (Number.finite 1 63) (2 ^ 63) ∧ isInteger (Number.finite 24 0) 24 ∧
      (getSize (sizeHost (Value.number (Number.finite 1 63)) (Value.number (Number.finite 24 0)))
        0 (boot (sizeHost (Value.number (Number.finite 1 63))
          (Value.number (Number.finite 24 0))) ())).1
        ≠ Outcome.returned (2 ^ 63, 24, none) := by
  refine ⟨by unfold bridgeReturns; decide, by decide, by decide, by decide,
    by unfold isInteger; decide, by unfold isInteger; decide, by decide⟩

/-- For a value that is not a BigInt, the method `Truthy` returns, and returns
JavaScript truthiness. -/
theorem truthy_of_not_bigint (v : Value) (hbig : ∀ n, v ≠ Value.bigint n) :
    ∃ b : Bool, v.Truthy = Outcome.returned b ∧ (b = true ↔ jsTruthy v) := by
  cases v with
  | undefined => exact ⟨false, rfl, by simp [jsTruthy]⟩
  | null => exact ⟨false, rfl, by simp [jsTruthy]⟩
  | boolean b => exact ⟨b, rfl, by cases b <;> simp [jsTruthy]⟩
  | number x =>
    cases x with
    | nan => exact ⟨false, rfl, by simp [jsTruthy]⟩
    | inf b => exact ⟨true, rfl, by simp [jsTruthy]⟩
    | finite m e =>
      refine ⟨m != 0, rfl, ?_⟩
      simp only [jsTruthy]
      constructor
      · intro h
        have hm : m ≠ 0 := by simpa using h
        refine ⟨by simp, by simp, by simp, by simp, ?_, by simp, by simp⟩
        intro e2 he
        injection he with he
        injection he with h1 h2
        exact hm h1
      · intro h
        have := h.2.2.2.2.1 e
        simpa using this
  | string s => exact ⟨s != "", rfl, by simp [jsTruthy]⟩
  | symbol r => exact ⟨true, rfl, by simp [jsTruthy]⟩
  | object r => exact ⟨true, rfl, by simp [jsTruthy]⟩
  | func r => exact ⟨true, rfl, by simp [jsTruthy]⟩
  | bigint n => exact absurd rfl (hbig n)

/-- When the host's `isTerminal` returns `v`, the function `isTerminal` ends as
`Truthy` does on `v`, or on `js.Null()` when `v` is an Error instance. -/
theorem isTerminal_of_bridgeReturns {σ : Type} (H : Host σ) (fd : Int) (w : World σ)
    (v : Value) (s1 : σ) (hcall : bridgeReturns H w.host "isTerminal" [fdArg fd] v s1) :
    (isTerminal H fd w).1 = (if isHostError H w s1 v then Value.null else v).Truthy := by
  unfold isTerminal
  rw [jsBridge_of_bridgeReturns H "isTerminal" _ _ w v s1 (makeArgs_fd fd) hcall]
  cases isHostError H w s1 v <;> simp

/-- C5: if the host's `isTerminal(fd)` returns an instance of the Error constructor,
`isTerminal` returns `false`; it returns a boolean and nothing else, so no error
reaches the caller. -/
theorem isTerminal_false_on_host_error {σ : Type} (H : Host σ) (fd : Int) (w : World σ)
    (v : Value) (s1 : σ)
    (hcall : bridgeReturns H w.host "isTerminal" [fdArg fd] v s1)
    (herr : isHostError H w s1 v = true) :
    (isTerminal H fd w).1 = Outcome.returned false := by
  rw [isTerminal_of_bridgeReturns H fd w v s1 hcall]
  simp [herr, Value.Truthy, Value.TypeOf]

/-- C5, witness: the host's `isTerminal` returns an Error object. -/
theorem isTerminal_false_on_host_error_witness :
    (isTerminal failingHost 3 (boot failingHost ())).1 = Outcome.returned false :=
  isTerminal_false_on_host_error failingHost 3 (boot failingHost ()) (Value.object 9) ()
    (by unfold bridgeReturns; decide) (by decide)

/-- C6: for every descriptor and every state of the program and host, `readPassword`
returns a nil slice and the error "terminal: ReadPassword not implemented on js/wasm",
which is not a `js.Error`; the result is the same for every descriptor, and the world,
with its log of host interactions, is unchanged. -/
theorem readPassword_unsupported {σ : Type} (fd fd2 : Int) (w : World σ) :
    readPassword fd w
        = (Outcome.returned (none, some (error.errorString
            "terminal: ReadPassword not implemented on js/wasm")), w) ∧
      (error.errorString "terminal: ReadPassword not implemented on js/wasm").isBridgeError
        = false ∧
      readPassword fd w = readPassword fd2 w ∧
      (readPassword fd w).2.trace = w.trace := by
  refine ⟨?_, rfl, rfl, rfl⟩
  unfold readPassword GOOS GOARCH
  rfl

/-- C10 (amended): for every value `v` other than a BigInt that the host's
`isTerminal(fd)` returns, `isTerminal` returns a boolean `r` that is `true` exactly when
`v` is not an Error instance and `v` is truthy.  So `r` is `b` for the boolean `b`;
`true` for a non-zero number, a non-empty string and an object that is not an Error
instance; and `false` for `undefined`, `null`, zero, NaN and the empty string. -/
theorem isTerminal_iff_truthy {σ : Type} (H : Host σ) (fd : Int) (w : World σ)
    (v : Value) (s1 : σ)
    (hcall : bridgeReturns H w.host "isTerminal" [fdArg fd] v s1)
    (hbig : ∀ n, v ≠ Value.bigint n) :
    ∃ r : Bool, (isTerminal H fd w).1 = Outcome.returned r ∧
      (r = true ↔ (isHostError H w s1 v = false ∧ jsTruthy v)) ∧
      (∀ b, v = Value.boolean b → r = b) ∧
      (∀ x, v = Value.number x → x ≠ Number.nan → (∀ e, x ≠ Number.finite 0 e) → r = true) ∧
      (∀ s, v = Value.string s → s ≠ "" → r = true) ∧
      (∀ ref, v = Value.object ref → isHostError H w s1 v = false → r = true) ∧
      (v = Value.undefined ∨ v = Value.null ∨ v = Value.number Number.nan ∨
        (∃ e, v = Value.number (Number.finite 0 e)) ∨ v = Value.string "" → r = false) := by
  obtain ⟨b, hb, hiff⟩ := truthy_of_not_bigint v hbig
  have hres : (isTerminal H fd w).1 = Outcome.returned (!isHostError H w s1 v && b) := by
    rw [isTerminal_of_bridgeReturns H fd w v s1 hcall]
    cases isHostError H w s1 v
    · simpa using hb
    · rfl
  have key : (!isHostError H w s1 v && b) = true ↔
      (isHostError H w s1 v = false ∧ jsTruthy v) := by
    rw [← hiff]
    cases isHostError H w s1 v <;> simp
  refine ⟨!isHostError H w s1 v && b, hres, key, ?_, ?_, ?_, ?_, ?_⟩
  · intro c hc
    subst hc
    have h1 : isHostError H w s1 (Value.boolean c) = false := rfl
    have h2 : b = c := by
      have : Outcome.returned c = Outcome.returned b := hb
      injection this with h
      exact h.symm
    simp [h1, h2]
  · intro x hx hnan hzero
    subst hx
    apply key.mpr
    refine ⟨rfl, by simp, by simp, by simp, ?_, ?_, by simp, by simp⟩
    · intro h
      injection h with h
      exact hnan h
    · intro e h
      injection h with h
      exact hzero e h
  · intro s hs hne
    subst hs
    apply key.mpr
    refine ⟨rfl, by simp, by simp, by simp, by simp, by simp, ?_, by simp⟩
    intro h
    injection h with h
    exact hne h
  · intro ref hv hno
    apply key.mpr
    subst hv
    exact ⟨hno, by simp [jsTruthy]⟩
  · intro h
    have hnot : ¬ jsTruthy v := by
      rcases h with h | h | h | ⟨e, h⟩ | h <;> subst h <;> simp [jsTruthy]
    cases hr : (!isHostError H w s1 v && b)
    · rfl
    · exact absurd (key.mp hr).2 hnot

/-- C10, witness: the host's `isTerminal` returns the non-empty string "yes". -/
theorem isTerminal_iff_truthy_witness :
    ∃ r : Bool, (isTerminal (ttyHost (Value.string "yes")) 1
        (boot (ttyHost (Value.string "yes")) ())).1 = Outcome.returned r ∧ r = true := by
  obtain ⟨r, hr, _, _, _, hs, _⟩ :=
    isTerminal_iff_truthy (ttyHost (Value.string "yes")) 1
      (boot (ttyHost (Value.string "yes")) ()) (Value.string "yes") ()
      (by unfold bridgeReturns; decide) (by intro n h; injection h)
  exact ⟨r, hr, hs "yes" rfl (by decide)⟩

/-- C10, counterexample: the host's `isTerminal` returns the BigInt `10n`, a truthy
value that is not an Error instance; `isTerminal` does not return `true`, it panics in
`Truthy`. -/
theorem isTerminal_panics_on_bigint :
    bridgeReturns (ttyHost (Value.bigint 10)) () "isTerminal" [fdArg 0]
        (Value.bigint 10) () ∧
      isHostError (ttyHost (Value.bigint 10)) (boot (ttyHost (Value.bigint 10)) ()) ()
        (Value.bigint 10) = false ∧
      jsTruthy (Value.bigint 10) ∧
      (isTerminal (ttyHost (Value.bigint 10)) 0 (boot (ttyHost (Value.bigint 10)) ())).1
        = Outcome.panicked (Panic.message "bad type flag") := by
  refine ⟨by unfold bridgeReturns; decide, by decide, ?_, by decide⟩
  unfold jsTruthy
  simp

/-- A call whose arguments convert adds one event to the log and leaves `jsErrorCtor`
as it was, however the call ends. -/
theorem call_trace {σ : Type} (H : Host σ) (v : Value) (m : String) (args : List GoArg)
    (vals : List Value) (w : World σ) (hargs : makeArgs args = Outcome.returned vals) :
    (v.Call H m args w).2.trace = w.trace ++ [Event.call v m vals] ∧
      (v.Call H m args w).2.jsErrorCtor = w.jsErrorCtor := by
  simp only [Value.Call, World.log, hargs]
  rcases hvt : v.TypeOf with vt | q
  · by_cases hobj : vt.isObject = true
    · rcases hpt : (H.get w.host v m).TypeOf with pt | q
      · by_cases hfn : pt = ValueType.TypeFunction
        · rcases happ : H.apply w.host (H.get w.host v m) v vals with ⟨c, s1⟩
          cases c with
          | normal r => simp [hobj, hfn]
          | throw e =>
            rcases hpt2 : (H.get s1 v m).TypeOf with pt2 | q
            · by_cases hfn2 : pt2 = ValueType.TypeFunction <;>
                simp [hobj, hfn, hfn2, hpt2]
            · simp [hobj, hfn, hpt2]
        · simp [hobj, hfn]
      · simp [hobj]
    · simp [hobj]
  · simp

/-- The world `jsBridge` leaves is the world its call leaves. -/
theorem jsBridge_world {σ : Type} (H : Host σ) (method : String) (args : List GoArg)
    (w : World σ) :
    (jsBridge H method args w).2
      = ((H.global w.host bridgeKey).Call H method args (w.log (Event.globalGet bridgeKey))).2 := by
  simp only [jsBridge, GlobalGet]
  rcases hc : (H.global w.host bridgeKey).Call H method args (w.log (Event.globalGet bridgeKey))
    with ⟨o, w2⟩
  cases o with
  | panicked p => rfl
  | returned r =>
    by_cases hi : r.InstanceOf H w2.host w2.jsErrorCtor = true <;> simp [hi]

/-- Every call of `jsBridge` whose arguments convert reads the global key once and hands
one call to the host, on the value just read; `jsErrorCtor` is left as it was. -/
theorem jsBridge_trace {σ : Type} (H : Host σ) (method : String) (args : List GoArg)
    (vals : List Value) (w : World σ) (hargs : makeArgs args = Outcome.returned vals) :
    (jsBridge H method args w).2.trace
        = w.trace ++ [Event.globalGet bridgeKey,
            Event.call (H.global w.host bridgeKey) method vals] ∧
      (jsBridge H method args w).2.jsErrorCtor = w.jsErrorCtor := by
  rw [jsBridge_world]
  obtain ⟨h1, h2⟩ := call_trace H (H.global w.host bridgeKey) method args vals
    (w.log (Event.globalGet bridgeKey)) hargs
  rw [h1, h2]
  simp [World.log]

/-- The function `restore` never reaches the host when given a state: converting the
argument of type `state` panics in `ValueOf`, after the lookup of the bridge object. -/
theorem restore_panics {σ : Type} (H : Host σ) (fd : Int) (st : State) (w : World σ) :
    restore H fd (some st) w
      = (Outcome.panicked (Panic.message "ValueOf: invalid value"),
          w.log (Event.globalGet bridgeKey)) := by
  simp [restore, jsBridge, GlobalGet, Value.Call, makeArgs, ValueOf]

/-- When the host's `getState` returns `v`, the function `getState` returns the error
`js.Error` around `v` and no handle if `v` is an Error instance, and a handle around
`v` with a nil error otherwise. -/
theorem getState_of_bridgeReturns {σ : Type} (H : Host σ) (fd : Int) (w : World σ)
    (v : Value) (s1 : σ) (hcall : bridgeReturns H w.host "getState" [fdArg fd] v s1) :
    (getState H fd w).1 = Outcome.returned
      (if isHostError H w s1 v then (none, some (error.jsError v))
        else (some ⟨⟨v⟩⟩, none)) := by
  unfold getState
  rw [jsBridge_of_bridgeReturns H "getState" _ _ w v s1 (makeArgs_fd fd) hcall]
  cases isHostError H w s1 v <;> simp

/-- When the host's `makeRaw` returns `v`, the function `makeRaw` returns the error
`js.Error` around `v` and no handle if `v` is an Error instance, and a handle around
`v` with a nil error otherwise. -/
theorem makeRaw_of_bridgeReturns {σ : Type} (H : Host σ) (fd : Int) (w : World σ)
    (v : Value) (s1 : σ) (hcall : bridgeReturns H w.host "makeRaw" [fdArg fd] v s1) :
    (makeRaw H fd w).1 = Outcome.returned
      (if isHostError H w s1 v then (none, some (error.jsError v))
        else (some ⟨⟨v⟩⟩, none)) := by
  unfold makeRaw
  rw [jsBridge_of_bridgeReturns H "makeRaw" _ _ w v s1 (makeArgs_fd fd) hcall]
  cases isHostError H w s1 v <;> simp

/-- When the host's `getSize` returns an Error instance `v`, the function `getSize`
returns `(0, 0, js.Error{v})`. -/
theorem getSize_of_host_error {σ : Type} (H : Host σ) (fd : Int) (w : World σ)
    (v : Value) (s1 : σ) (hcall : bridgeReturns H w.host "getSize" [fdArg fd] v s1)
    (herr : isHostError H w s1 v = true) :
    (getSize H fd w).1 = Outcome.returned (0, 0, some (error.jsError v)) := by
  unfold getSize
  rw [jsBridge_of_bridgeReturns H "getSize" _ _ w v s1 (makeArgs_fd fd) hcall]
  simp [herr]

/-- The world `isTerminal` leaves is the world its bridge call leaves. -/
theorem isTerminal_world {σ : Type} (H : Host σ) (fd : Int) (w : World σ) :
    (isTerminal H fd w).2 = (jsBridge H "isTerminal" [GoArg.int fd] w).2 := by
  unfold isTerminal
  rcases jsBridge H "isTerminal" [GoArg.int fd] w with ⟨o, w1⟩
  cases o <;> rfl

/-- The world `makeRaw` leaves is the world its bridge call leaves. -/
theorem makeRaw_world {σ : Type} (H : Host σ) (fd : Int) (w : World σ) :
    (makeRaw H fd w).2 = (jsBridge H "makeRaw" [GoArg.int fd] w).2 := by
  unfold makeRaw
  rcases jsBridge H "makeRaw" [GoArg.int fd] w with ⟨o, w1⟩
  cases o with
  | panicked p => rfl
  | returned r => by_cases h : r.1 = none <;> simp [h]

/-- The world `getState` leaves is the world its bridge call leaves. -/
theorem getState_world {σ : Type} (H : Host σ) (fd : Int) (w : World σ) :
    (getState H fd w).2 = (jsBridge H "getState" [GoArg.int fd] w).2 := by
  unfold getState
  rcases jsBridge H "getState" [GoArg.int fd] w with ⟨o, w1⟩
  cases o with
  | panicked p => rfl
  | returned r => by_cases h : r.1 = none <;> simp [h]

/-- The world `getSize` leaves is the world its bridge call leaves. -/
theorem getSize_world {σ : Type} (H : Host σ) (fd : Int) (w : World σ) :
    (getSize H fd w).2 = (jsBridge H "getSize" [GoArg.int fd] w).2 := by
  unfold getSize
  rcases jsBridge H "getSize" [GoArg.int fd] w with ⟨o, w1⟩
  cases o with
  | panicked p => rfl
  | returned r =>
    obtain ⟨err, wh⟩ := r
    simp only
    split_ifs
    · rfl
    · split
      · rfl
      · split_ifs
        · rfl
        · split
          · split
            · rfl
            · rfl
            · split <;> rfl
          · rfl
          · rfl

/-- C3: the host's `restore` would return object 9, an instance of Error, and the
sibling operations `getSize`, `getState` and `makeRaw` turn that same value into a
returned `js.Error` with empty results; `restore` panics in `ValueOf` instead of
returning the error. -/
theorem restore_panics_on_host_error :
    bridgeReturns failingHost () "restore" [fdArg 0, Value.object 5] (Value.object 9) () ∧
      isHostError failingHost (boot failingHost ()) () (Value.object 9) = true ∧
      (getSize failingHost 0 (boot failingHost ())).1
        = Outcome.returned (0, 0, some (error.jsError (Value.object 9))) ∧
      (getState failingHost 0 (boot failingHost ())).1
        = Outcome.returned (none, some (error.jsError (Value.object 9))) ∧
      (makeRaw failingHost 0 (boot failingHost ())).1
        = Outcome.returned (none, some (error.jsError (Value.object 9))) ∧
      (restore failingHost 0 (some ⟨⟨Value.object 5⟩⟩) (boot failingHost ())).1
        = Outcome.panicked (Panic.message "ValueOf: invalid value") := by
  refine ⟨by unfold bridgeReturns; decide, by decide, by decide, by decide, by decide,
    by decide⟩

/-- C4: `makeRaw` returns a handle around the host's value (object 5), and the host's
`restore(fd, v)` would return `undefined`; `restore` with that handle panics in
`ValueOf`, and the log shows the lookup of the bridge object but no call of the host's
`restore`. -/
theorem makeRaw_restore_panics :
    makeRaw rawHost 0 (boot rawHost ())
        = (Outcome.returned (some ⟨⟨Value.object 5⟩⟩, none),
            { jsErrorCtor := Value.func 0, host := (),
              trace := [Event.globalGet "Error", Event.globalGet bridgeKey,
                Event.call (Value.object 1) "makeRaw" [fdArg 0]] }) ∧
      bridgeReturns rawHost () "restore" [fdArg 0, Value.object 5] Value.undefined () ∧
      isHostError rawHost (boot rawHost ()) () Value.undefined = false ∧
      restore rawHost 0 (some ⟨⟨Value.object 5⟩⟩) (makeRaw rawHost 0 (boot rawHost ())).2
        = (Outcome.panicked (Panic.message "ValueOf: invalid value"),
            { jsErrorCtor := Value.func 0, host := (),
              trace := [Event.globalGet "Error", Event.globalGet bridgeKey,
                Event.call (Value.object 1) "makeRaw" [fdArg 0],
                Event.globalGet bridgeKey] }) := by
  refine ⟨by decide, by unfold bridgeReturns; decide, by decide, by decide⟩

/-- C7: with a bridge object that omits the methods, `getSize`, `getState`, `makeRaw`
and `isTerminal` panic with the not-a-function text; with no bridge object under the
global key they panic with a `ValueError`.  None of them returns. -/
theorem missing_method_panics :
    (getSize bareHost 0 (boot bareHost ())).1
        = Outcome.panicked (Panic.message
            "syscall/js: Value.Call: property getSize is not a function, got undefined") ∧
      (getState bareHost 0 (boot bareHost ())).1
        = Outcome.panicked (Panic.message
            "syscall/js: Value.Call: property getState is not a function, got undefined") ∧
      (makeRaw bareHost 0 (boot bareHost ())).1
        = Outcome.panicked (Panic.message
            "syscall/js: Value.Call: property makeRaw is not a function, got undefined") ∧
      (isTerminal bareHost 0 (boot bareHost ())).1
        = Outcome.panicked (Panic.message
            "syscall/js: Value.Call: property isTerminal is not a function, got undefined") ∧
      (getSize absentHost 0 (boot absentHost ())).1
        = Outcome.panicked (Panic.valueError "Value.Call" ValueType.TypeUndefined) ∧
      (getState absentHost 0 (boot absentHost ())).1
        = Outcome.panicked (Panic.valueError "Value.Call" ValueType.TypeUndefined) ∧
      (makeRaw absentHost 0 (boot absentHost ())).1
        = Outcome.panicked (Panic.valueError "Value.Call" ValueType.TypeUndefined) ∧
      (isTerminal absentHost 0 (boot absentHost ())).1
        = Outcome.panicked (Panic.valueError "Value.Call" ValueType.TypeUndefined) := by
  refine ⟨by decide, by decide, by decide, by decide, by decide, by decide, by decide,
    by decide⟩

/-- C8: the host returns object 7, a plain object with `name` and `message` properties
that is not an instance of Error.  `getState` and `makeRaw` return a handle around it
with a nil error; `restore`, whose host method would return the same object, panics in
`ValueOf` instead of returning nil. -/
theorem lookalike_is_payload_but_restore_panics :
    lookalikeHost.get () (Value.object 7) "name" = Value.string "Error" ∧
      lookalikeHost.get () (Value.object 7) "message" = Value.string "boom" ∧
      isHostError lookalikeHost (boot lookalikeHost ()) () (Value.object 7) = false ∧
      (getState lookalikeHost 0 (boot lookalikeHost ())).1
        = Outcome.returned (some ⟨⟨Value.object 7⟩⟩, none) ∧
      (makeRaw lookalikeHost 0 (boot lookalikeHost ())).1
        = Outcome.returned (some ⟨⟨Value.object 7⟩⟩, none) ∧
      bridgeReturns lookalikeHost () "restore" [fdArg 0, Value.object 7] (Value.object 7) () ∧
      (restore lookalikeHost 0 (some ⟨⟨Value.object 7⟩⟩) (boot lookalikeHost ())).1
        = Outcome.panicked (Panic.message "ValueOf: invalid value") := by
  refine ⟨by decide, by decide, by decide, by decide, by decide,
    by unfold bridgeReturns; decide, by decide⟩

/-- C9 (amended): the bridge object is not cached.  Each run of `isTerminal`,
`getSize`, `getState` and `makeRaw` reads the global key exactly once and hands its
call to the value found by that read, in the host state of that moment.  What is read
once and kept is the Error constructor: `init` stores it, and no operation changes
it. -/
theorem bridge_looked_up_on_every_call {σ : Type} (H : Host σ) (fd : Int) (w : World σ) :
    ((isTerminal H fd w).2.trace = w.trace ++ [Event.globalGet bridgeKey,
        Event.call (H.global w.host bridgeKey) "isTerminal" [fdArg fd]] ∧
      (getSize H fd w).2.trace = w.trace ++ [Event.globalGet bridgeKey,
        Event.call (H.global w.host bridgeKey) "getSize" [fdArg fd]] ∧
      (getState H fd w).2.trace = w.trace ++ [Event.globalGet bridgeKey,
        Event.call (H.global w.host bridgeKey) "getState" [fdArg fd]] ∧
      (makeRaw H fd w).2.trace = w.trace ++ [Event.globalGet bridgeKey,
        Event.call (H.global w.host bridgeKey) "makeRaw" [fdArg fd]]) ∧
    ((init H w).jsErrorCtor = H.global w.host "Error" ∧
      (init H w).trace = w.trace ++ [Event.globalGet "Error"] ∧
      (isTerminal H fd w).2.jsErrorCtor = w.jsErrorCtor ∧
      (getSize H fd w).2.jsErrorCtor = w.jsErrorCtor ∧
      (getState H fd w).2.jsErrorCtor = w.jsErrorCtor ∧
      (makeRaw H fd w).2.jsErrorCtor = w.jsErrorCtor) := by
  rw [isTerminal_world, getSize_world, getState_world, makeRaw_world]
  exact ⟨⟨(jsBridge_trace H _ _ _ w (makeArgs_fd fd)).1,
      (jsBridge_trace H _ _ _ w (makeArgs_fd fd)).1,
      (jsBridge_trace H _ _ _ w (makeArgs_fd fd)).1,
      (jsBridge_trace H _ _ _ w (makeArgs_fd fd)).1⟩,
    rfl, rfl, (jsBridge_trace H _ _ _ w (makeArgs_fd fd)).2,
    (jsBridge_trace H _ _ _ w (makeArgs_fd fd)).2,
    (jsBridge_trace H _ _ _ w (makeArgs_fd fd)).2,
    (jsBridge_trace H _ _ _ w (makeArgs_fd fd)).2⟩

/-- C9, counterexample: on a host that replaces the bridge object after the first call,
two runs of `getState` read the global key twice, and the second call goes to the new
object 1, not to object 0 found by the first read. -/
theorem bridge_lookup_not_cached :
    (getState replacingHost 0 (getState replacingHost 0 (boot replacingHost 0)).2).2.trace
        = [Event.globalGet "Error",
            Event.globalGet bridgeKey, Event.call (Value.object 0) "getState" [fdArg 0],
            Event.globalGet bridgeKey, Event.call (Value.object 1) "getState" [fdArg 0]] ∧
      List.count (Event.globalGet bridgeKey)
        (getState replacingHost 0 (getState replacingHost 0 (boot replacingHost 0)).2).2.trace
        = 2 := by
  refine ⟨by decide, by decide⟩

end term
